import Mathlib

/-!
Verification of the resilience layer of the Receipt-Manager backend:
the circuit breaker (src/shared/utils/circuit_breaker.py) and the
multi-window rate limiter (src/ai_service/utils/rate_limiter.py).

The Python classes keep their state in a shared key-value store (Django
cache).  The embedding represents the per-breaker persisted fields
(state, failure_count, success_count, last_failure_time) as a record and
tracks, in two extra counters, how many store writes and how many writes
of the metrics aggregate each operation performs.  Wall-clock time is an
integer number of seconds passed in explicitly.  The wrapped operation is
represented by its observable behaviour: it either succeeds or raises a
failure whose kind is or is not among the configured expected kinds;
the outcome of a guarded call records whether the operation was invoked,
whether it succeeded, or whether the breaker rejected the call with
CircuitBreakerError.
-/

/-- The three states of CircuitBreakerState; the Python OPEN member is
called opened here because open is a Lean keyword. -/
inductive CircuitBreakerState
  | closed
  | opened
  | half_open
deriving DecidableEq, Repr

/-- The fields of CircuitBreakerConfig used by the state machine.
The advisory timeout field and the name are irrelevant to the claims
and omitted; expected_exceptions is represented at each failure by a
boolean saying whether the raised failure is an instance of it. -/
structure CircuitBreakerConfig where
  failure_threshold : Nat
  recovery_timeout : Int
  success_threshold : Nat
deriving DecidableEq, Repr

/-- The persisted per-breaker fields, plus two instrumentation counters:
store_writes counts every cache.set the operation performs on the
breaker's keys, and metrics_writes counts those cache.set calls that
write the metrics aggregate. -/
structure CircuitBreaker where
  state : CircuitBreakerState
  failure_count : Nat
  success_count : Nat
  last_failure_time : Int
  store_writes : Nat
  metrics_writes : Nat
deriving DecidableEq, Repr

/-- The state setter property: cache.set of the state key always, and,
when the state actually changes, one further cache.set of the metrics
aggregate from update_state_change_metrics. -/
def set_state (b : CircuitBreaker) (s : CircuitBreakerState) : CircuitBreaker :=
  if b.state = s then
    { b with store_writes := b.store_writes + 1 }
  else
    { b with state := s, store_writes := b.store_writes + 2,
             metrics_writes := b.metrics_writes + 1 }

/-- record_success: in HALF_OPEN, increment success_count (one store
write); once it reaches success_threshold, set the state to CLOSED and
zero both counters (two further store writes).  In any state the final
update_success_metrics writes the metrics aggregate once. -/
def record_success (cfg : CircuitBreakerConfig) (b : CircuitBreaker) : CircuitBreaker :=
  let b1 :=
    match b.state with
    | CircuitBreakerState.half_open =>
        let sc := b.success_count + 1
        let b2 := { b with success_count := sc, store_writes := b.store_writes + 1 }
        if cfg.success_threshold ≤ sc then
          let b3 := set_state b2 CircuitBreakerState.closed
          { b3 with failure_count := 0, success_count := 0,
                    store_writes := b3.store_writes + 2 }
        else b2
    | _ => b
  { b1 with store_writes := b1.store_writes + 1, metrics_writes := b1.metrics_writes + 1 }

/-- record_failure: a failure whose kind is not among the expected
kinds returns immediately without touching anything.  Otherwise the
failure count is incremented and last_failure_time set (two store
writes); from CLOSED at the threshold, or from HALF_OPEN always, the
state is set to OPEN and success_count zeroed (one more store write);
finally update_failure_metrics writes the metrics aggregate once. -/
def record_failure (cfg : CircuitBreakerConfig) (b : CircuitBreaker) (now : Int)
    (expected : Bool) : CircuitBreaker :=
  if expected = false then b
  else
    let b1 := { b with failure_count := b.failure_count + 1, last_failure_time := now,
                       store_writes := b.store_writes + 2 }
    let b2 :=
      match b.state with
      | CircuitBreakerState.closed =>
          if cfg.failure_threshold ≤ b.failure_count + 1 then
            let b3 := set_state b1 CircuitBreakerState.opened
            { b3 with success_count := 0, store_writes := b3.store_writes + 1 }
          else b1
      | CircuitBreakerState.half_open =>
          let b3 := set_state b1 CircuitBreakerState.opened
          { b3 with success_count := 0, store_writes := b3.store_writes + 1 }
      | CircuitBreakerState.opened => b1
    { b2 with store_writes := b2.store_writes + 1, metrics_writes := b2.metrics_writes + 1 }

/-- can_attempt_reset: only from OPEN, and only once
now minus last_failure_time has reached recovery_timeout. -/
def can_attempt_reset (cfg : CircuitBreakerConfig) (b : CircuitBreaker) (now : Int) : Bool :=
  if b.state = CircuitBreakerState.opened then
    decide (cfg.recovery_timeout ≤ now - b.last_failure_time)
  else false

/-- What the wrapped operation does when it is invoked: succeed, or
raise a failure whose kind is expected (counts against the breaker) or
not. -/
inductive OpBehavior
  | succeeds
  | fails (expected : Bool)
deriving DecidableEq, Repr

/-- The observable outcome of one guarded call: rejected means
CircuitBreakerError was raised and the operation never invoked; ok
means the operation was invoked and its result returned; raised means
the operation was invoked and its failure propagated to the caller. -/
inductive CallOutcome
  | rejected
  | ok
  | raised (expected : Bool)
deriving DecidableEq, Repr

/-- Invoking the operation once and doing the success or failure
bookkeeping, as the body of call does after the admission check. -/
def run_op (cfg : CircuitBreakerConfig) (b : CircuitBreaker) (now : Int)
    (op : OpBehavior) : CircuitBreaker × CallOutcome :=
  match op with
  | OpBehavior.succeeds => (record_success cfg b, CallOutcome.ok)
  | OpBehavior.fails e => (record_failure cfg b now e, CallOutcome.raised e)

/-- CircuitBreaker.call: from OPEN, either transition to HALF_OPEN and
proceed when the recovery timeout has elapsed, or raise
CircuitBreakerError without invoking the operation; from CLOSED or
HALF_OPEN, invoke the operation and record its outcome. -/
def CircuitBreaker.call (cfg : CircuitBreakerConfig) (b : CircuitBreaker) (now : Int)
    (op : OpBehavior) : CircuitBreaker × CallOutcome :=
  if b.state = CircuitBreakerState.opened then
    if can_attempt_reset cfg b now then
      run_op cfg (set_state b CircuitBreakerState.half_open) now op
    else (b, CallOutcome.rejected)
  else run_op cfg b now op

/-- CircuitBreaker.reset: force the state to CLOSED through the setter,
then zero failure_count, success_count and last_failure_time (three
store writes). -/
def CircuitBreaker.reset (b : CircuitBreaker) : CircuitBreaker :=
  let b1 := set_state b CircuitBreakerState.closed
  { b1 with failure_count := 0, success_count := 0, last_failure_time := 0,
            store_writes := b1.store_writes + 3 }

/-- The four persisted fields of a breaker, without the instrumentation
counters: what a reader of the store observes. -/
def CircuitBreaker.persisted (b : CircuitBreaker) :
    CircuitBreakerState × Nat × Nat × Int :=
  (b.state, b.failure_count, b.success_count, b.last_failure_time)

/-- A sequence of guarded calls whose operation raises an expected-kind
failure every time, at the given sequence of times. -/
def fail_calls (cfg : CircuitBreakerConfig) (b : CircuitBreaker) (ts : List Int) :
    CircuitBreaker :=
  ts.foldl (fun s t => (CircuitBreaker.call cfg s t (OpBehavior.fails true)).1) b

/-- A sequence of guarded calls whose operation succeeds every time,
at the given sequence of times. -/
def success_calls (cfg : CircuitBreakerConfig) (b : CircuitBreaker) (ts : List Int) :
    CircuitBreaker :=
  ts.foldl (fun s t => (CircuitBreaker.call cfg s t OpBehavior.succeeds).1) b

/-!
The rate limiter.  Its counters live in the shared store under keys
derived from the service, the window kind, the bucket index (current
time in seconds divided by the window width) and, for the burst window,
an optional caller identity.  The store is modelled by one counter
function per window kind; the caller identity is an optional value of an
abstract countable type, modelled as Nat.  current_time is
int(time.time()), a non-negative number of seconds, modelled as Nat so
that division and modulus agree with Python floor semantics.

Errors raised by the store are injected through an explicit error model:
check_err says a store access during one of the three limit checks
raises (caught by the outer handler of check_rate_limit, producing the
failsafe decision); record_fail_after, when present, says the store
raises inside record_request after that many of its three counter
increments have completed (caught inside record_request itself);
remaining_err says the store raises inside get_remaining_requests
(caught there, yielding 0).
-/

/-- The per-service limit configuration read from self.limits. -/
structure ServiceLimits where
  requests_per_minute : Nat
  requests_per_day : Nat
  burst_limit : Nat
  enabled : Bool
deriving DecidableEq, Repr

/-- The reason strings the rate limiter puts in its decision dict. -/
inductive RLReason
  | no_limits_configured
  | rate_limiting_disabled
  | minute_limit_exceeded
  | daily_limit_exceeded
  | burst_limit_exceeded
deriving DecidableEq, Repr

/-- The window field of a denial. -/
inductive RLWindow
  | minute
  | daily
  | burst
deriving DecidableEq, Repr

/-- The rate-limit counters in the shared store: one count per minute
bucket, per day bucket, and per burst bucket and optional caller
identity.  Absent keys read as 0, as cache.get does with default 0. -/
structure RLStore where
  minute : Nat → Nat
  day : Nat → Nat
  burst : Nat → Option Nat → Nat

/-- The decision dict returned by check_rate_limit, with absent keys as
none; failsafe is the flag of the fail-open branch. -/
structure RLResult where
  allowed : Bool
  reason : Option RLReason := none
  limit : Option Nat := none
  current : Option Nat := none
  reset_in : Option Nat := none
  window : Option RLWindow := none
  remaining_minute : Option Nat := none
  remaining_daily : Option Nat := none
  failsafe : Bool := false
deriving DecidableEq, Repr

/-- Which store accesses raise during one check_rate_limit call. -/
structure ErrModel where
  check_err : Bool := false
  record_fail_after : Option Nat := none
  remaining_err : Bool := false
deriving DecidableEq, Repr

/-- check_minute_limit: deny once the current minute bucket has reached
requests_per_minute, with reset_in = 60 - (t mod 60). -/
def check_minute_limit (L : ServiceLimits) (s : RLStore) (t : Nat) : RLResult :=
  let c := s.minute (t / 60)
  if L.requests_per_minute ≤ c then
    { allowed := false, reason := some RLReason.minute_limit_exceeded,
      limit := some L.requests_per_minute, current := some c,
      reset_in := some (60 - t % 60), window := some RLWindow.minute }
  else { allowed := true }

/-- check_daily_limit: deny once the current day bucket has reached
requests_per_day, with reset_in = 86400 - (t mod 86400). -/
def check_daily_limit (L : ServiceLimits) (s : RLStore) (t : Nat) : RLResult :=
  let c := s.day (t / 86400)
  if L.requests_per_day ≤ c then
    { allowed := false, reason := some RLReason.daily_limit_exceeded,
      limit := some L.requests_per_day, current := some c,
      reset_in := some (86400 - t % 86400), window := some RLWindow.daily }
  else { allowed := true }

/-- check_burst_limit: deny once the current 10-second bucket for this
caller identity has reached burst_limit, with reset_in = 10 - (t mod 10). -/
def check_burst_limit (L : ServiceLimits) (s : RLStore) (t : Nat)
    (u : Option Nat) : RLResult :=
  let c := s.burst (t / 10) u
  if L.burst_limit ≤ c then
    { allowed := false, reason := some RLReason.burst_limit_exceeded,
      limit := some L.burst_limit, current := some c,
      reset_in := some (10 - t % 10), window := some RLWindow.burst }
  else { allowed := true }

/-- Increment the minute bucket counter at index i. -/
def bump_minute (s : RLStore) (i : Nat) : RLStore :=
  { s with minute := fun j => if j = i then s.minute j + 1 else s.minute j }

/-- Increment the day bucket counter at index i. -/
def bump_day (s : RLStore) (i : Nat) : RLStore :=
  { s with day := fun j => if j = i then s.day j + 1 else s.day j }

/-- Increment the burst bucket counter at index i for identity u. -/
def bump_burst (s : RLStore) (i : Nat) (u : Option Nat) : RLStore :=
  { s with burst := fun j v => if j = i ∧ v = u then s.burst j v + 1 else s.burst j v }

/-- record_request: increment the minute, day and burst counters in that
order.  Its own try/except swallows a store error, so when the store
raises after k completed increments the first k increments remain and
nothing propagates. -/
def record_request (s : RLStore) (t : Nat) (u : Option Nat)
    (fail_after : Option Nat) : RLStore :=
  let steps := match fail_after with
    | none => 3
    | some k => min k 3
  let s1 := if 1 ≤ steps then bump_minute s (t / 60) else s
  let s2 := if 2 ≤ steps then bump_day s1 (t / 86400) else s1
  if 3 ≤ steps then bump_burst s2 (t / 10) u else s2

/-- get_remaining_requests: max 0 (limit - current) for the minute or
daily window; on a store error its local handler returns 0. -/
def get_remaining_requests (L : ServiceLimits) (s : RLStore) (t : Nat)
    (w : RLWindow) (err : Bool) : Nat :=
  if err then 0
  else
    match w with
    | RLWindow.minute => L.requests_per_minute - s.minute (t / 60)
    | RLWindow.daily => L.requests_per_day - s.day (t / 86400)
    | RLWindow.burst => 0

/-- The body of check_rate_limit under its outer try: an unknown or
disabled service passes through; otherwise the three checks run in the
fixed order minute, day, burst, the first denial is returned without
recording, and when all pass the request is recorded and the allowed
decision built with the remaining-quota estimates.  The Except error is
a store error escaping from the check phase. -/
def check_rate_limit_body (limits : Option ServiceLimits) (s : RLStore) (t : Nat)
    (u : Option Nat) (e : ErrModel) : Except Unit (RLResult × RLStore) :=
  match limits with
  | none =>
      Except.ok ({ allowed := true, reason := some RLReason.no_limits_configured }, s)
  | some L =>
      if L.enabled = false then
        Except.ok ({ allowed := true, reason := some RLReason.rate_limiting_disabled }, s)
      else if e.check_err then Except.error ()
      else
        let c1 := check_minute_limit L s t
        let c2 := check_daily_limit L s t
        let c3 := check_burst_limit L s t u
        if c1.allowed = false then Except.ok (c1, s)
        else if c2.allowed = false then Except.ok (c2, s)
        else if c3.allowed = false then Except.ok (c3, s)
        else
          let s1 := record_request s t u e.record_fail_after
          Except.ok
            ({ allowed := true,
               remaining_minute :=
                 some (get_remaining_requests L s1 t RLWindow.minute e.remaining_err),
               remaining_daily :=
                 some (get_remaining_requests L s1 t RLWindow.daily e.remaining_err) }, s1)

/-- check_rate_limit: the body under the outer try/except; a store error
escaping the check phase is caught and turned into the fail-open
decision with the failsafe flag, leaving the store untouched. -/
def check_rate_limit (limits : Option ServiceLimits) (s : RLStore) (t : Nat)
    (u : Option Nat) (e : ErrModel) : RLResult × RLStore :=
  match check_rate_limit_body limits s t u e with
  | Except.ok r => r
  | Except.error _ => ({ allowed := true, failsafe := true }, s)

/-- One admission check followed by its store effect, with no store
errors injected: the step of a run of consecutive calls. -/
def rl_step (L : ServiceLimits) (u : Option Nat) (s : RLStore) (t : Nat) :
    RLResult × RLStore :=
  check_rate_limit (some L) s t u {}

/-- A run of consecutive admission checks at the given times. -/
def rl_run (L : ServiceLimits) (u : Option Nat) (ts : List Nat) (s : RLStore) : RLStore :=
  ts.foldl (fun s t => (rl_step L u s t).2) s

/-- Every call of the run is admitted. -/
def rl_all_allowed (L : ServiceLimits) (u : Option Nat) : List Nat → RLStore → Prop
  | [], _ => True
  | t :: ts, s =>
      (rl_step L u s t).1.allowed = true ∧ rl_all_allowed L u ts (rl_step L u s t).2

/-- At every step of the run, the day and burst caps have not been
reached at the moment of the call: the side caps stay out of the way. -/
def rl_side_ok (L : ServiceLimits) (u : Option Nat) : List Nat → RLStore → Prop
  | [], _ => True
  | t :: ts, s =>
      s.day (t / 86400) < L.requests_per_day ∧
      s.burst (t / 10) u < L.burst_limit ∧
      rl_side_ok L u ts (rl_step L u s t).2

/-- The outcome a call produces when the operation is actually invoked:
the operation runs once and its success or failure is what the caller
sees. -/
def op_outcome : OpBehavior → CallOutcome
  | OpBehavior.succeeds => CallOutcome.ok
  | OpBehavior.fails e => CallOutcome.raised e

/-- The dict returned by CircuitBreakerManager.get_health_summary.
Breaker names are modelled as natural numbers; overall_health is the
exact rational ratio. -/
structure HealthSummary where
  total_circuit_breakers : Nat
  healthy : Nat
  unhealthy : Nat
  overall_health : ℚ
  breakers : List (Nat × CircuitBreakerState)
deriving DecidableEq, Repr

/-- CircuitBreakerManager.get_health_summary over the process-local
registry: counts of breakers, of those in CLOSED, the complement, and
the ratio healthy over total guarded by the total being positive, with
1.0 for an empty registry. -/
def get_health_summary (breakers : List (Nat × CircuitBreakerState)) : HealthSummary :=
  let total := breakers.length
  let healthy := breakers.countP (fun p => p.2 == CircuitBreakerState.closed)
  { total_circuit_breakers := total
    healthy := healthy
    unhealthy := total - healthy
    overall_health := if 0 < total then (healthy : ℚ) / (total : ℚ) else 1
    breakers := breakers }

/-!
Concrete instances used by the witnesses and counterexamples.
-/

/-- A configuration with the default thresholds of CircuitBreakerConfig:
failure_threshold 5, recovery_timeout 60, success_threshold 3. -/
def cfgW : CircuitBreakerConfig :=
  { failure_threshold := 5, recovery_timeout := 60, success_threshold := 3 }

/-- A configuration with failure_threshold 2. -/
def cfgW2 : CircuitBreakerConfig :=
  { failure_threshold := 2, recovery_timeout := 60, success_threshold := 3 }

/-- A breaker that opened at time 0 after five failures. -/
def bOpenW : CircuitBreaker :=
  { state := CircuitBreakerState.opened, failure_count := 5, success_count := 0,
    last_failure_time := 0, store_writes := 0, metrics_writes := 0 }

/-- A fresh closed breaker. -/
def bClosedW : CircuitBreaker :=
  { state := CircuitBreakerState.closed, failure_count := 0, success_count := 0,
    last_failure_time := 0, store_writes := 0, metrics_writes := 0 }

/-- A probing breaker that has just entered HALF_OPEN. -/
def bHalfW : CircuitBreaker :=
  { state := CircuitBreakerState.half_open, failure_count := 5, success_count := 0,
    last_failure_time := 0, store_writes := 0, metrics_writes := 0 }

/-- A probing breaker two successes into recovery. -/
def bHalf2W : CircuitBreaker :=
  { state := CircuitBreakerState.half_open, failure_count := 5, success_count := 2,
    last_failure_time := 0, store_writes := 0, metrics_writes := 0 }

/-- Service limits with a minute cap of 2. -/
def limitsW : ServiceLimits :=
  { requests_per_minute := 2, requests_per_day := 10, burst_limit := 5, enabled := true }

/-- Service limits with a minute cap of 0: every admission check in the
minute window is denied. -/
def limitsW0 : ServiceLimits :=
  { requests_per_minute := 0, requests_per_day := 10, burst_limit := 5, enabled := true }

/-- Service limits with every cap at 1. -/
def limitsW1 : ServiceLimits :=
  { requests_per_minute := 1, requests_per_day := 1, burst_limit := 1, enabled := true }

/-- A store with all counters at zero. -/
def storeZ : RLStore :=
  { minute := fun _ => 0, day := fun _ => 0, burst := fun _ _ => 0 }

/-!
Helper lemmas: how one guarded call unfolds on each admission path, and
what the two bookkeeping functions do to the persisted fields.
-/

/-- A call while OPEN before the recovery timeout is rejected outright:
no state change, no store write, the operation is not invoked. -/
theorem call_rejected (cfg : CircuitBreakerConfig) (b : CircuitBreaker) (t : Int)
    (op : OpBehavior) (hst : b.state = CircuitBreakerState.opened)
    (h : t - b.last_failure_time < cfg.recovery_timeout) :
    CircuitBreaker.call cfg b t op = (b, CallOutcome.rejected) := by
  unfold CircuitBreaker.call can_attempt_reset
  simp [hst, not_le.mpr h]

/-- A call while OPEN at or after the recovery timeout transitions to
HALF_OPEN and runs the operation from there. -/
theorem call_recovering (cfg : CircuitBreakerConfig) (b : CircuitBreaker) (t : Int)
    (op : OpBehavior) (hst : b.state = CircuitBreakerState.opened)
    (h : cfg.recovery_timeout ≤ t - b.last_failure_time) :
    CircuitBreaker.call cfg b t op =
      run_op cfg (set_state b CircuitBreakerState.half_open) t op := by
  unfold CircuitBreaker.call can_attempt_reset
  simp [hst, h]

/-- A call while not OPEN runs the operation directly. -/
theorem call_not_open (cfg : CircuitBreakerConfig) (b : CircuitBreaker) (t : Int)
    (op : OpBehavior) (hst : b.state ≠ CircuitBreakerState.opened) :
    CircuitBreaker.call cfg b t op = run_op cfg b t op := by
  unfold CircuitBreaker.call
  simp [hst]

/-- The state setter changes only the state and the write counters. -/
theorem set_state_fields (b : CircuitBreaker) (s : CircuitBreakerState) :
    (set_state b s).state = s ∧
    (set_state b s).failure_count = b.failure_count ∧
    (set_state b s).success_count = b.success_count ∧
    (set_state b s).last_failure_time = b.last_failure_time := by
  unfold set_state
  by_cases h : b.state = s <;> simp [h]

/-- Recording a success while CLOSED or OPEN leaves every persisted
field unchanged. -/
theorem record_success_not_half (cfg : CircuitBreakerConfig) (b : CircuitBreaker)
    (hst : b.state ≠ CircuitBreakerState.half_open) :
    (record_success cfg b).persisted = b.persisted := by
  unfold record_success CircuitBreaker.persisted
  cases h : b.state <;> simp_all

/-- Recording a success while HALF_OPEN below the success threshold only
increments success_count. -/
theorem record_success_half_lt (cfg : CircuitBreakerConfig) (b : CircuitBreaker)
    (hst : b.state = CircuitBreakerState.half_open)
    (h : ¬ cfg.success_threshold ≤ b.success_count + 1) :
    (record_success cfg b).state = CircuitBreakerState.half_open ∧
    (record_success cfg b).failure_count = b.failure_count ∧
    (record_success cfg b).success_count = b.success_count + 1 ∧
    (record_success cfg b).last_failure_time = b.last_failure_time := by
  unfold record_success
  simp [hst, h]

/-- Recording the success that reaches the threshold while HALF_OPEN
closes the circuit and zeroes both counters. -/
theorem record_success_half_ge (cfg : CircuitBreakerConfig) (b : CircuitBreaker)
    (hst : b.state = CircuitBreakerState.half_open)
    (h : cfg.success_threshold ≤ b.success_count + 1) :
    (record_success cfg b).state = CircuitBreakerState.closed ∧
    (record_success cfg b).failure_count = 0 ∧
    (record_success cfg b).success_count = 0 ∧
    (record_success cfg b).last_failure_time = b.last_failure_time := by
  unfold record_success set_state
  simp [hst, h]

/-- Recording a failure of an unexpected kind changes nothing at all. -/
theorem record_failure_unexpected (cfg : CircuitBreakerConfig) (b : CircuitBreaker)
    (t : Int) : record_failure cfg b t false = b := by
  unfold record_failure
  simp

/-- Recording an expected failure while CLOSED below the failure
threshold increments failure_count and stamps last_failure_time. -/
theorem record_failure_closed_lt (cfg : CircuitBreakerConfig) (b : CircuitBreaker)
    (t : Int) (hst : b.state = CircuitBreakerState.closed)
    (h : ¬ cfg.failure_threshold ≤ b.failure_count + 1) :
    (record_failure cfg b t true).state = CircuitBreakerState.closed ∧
    (record_failure cfg b t true).failure_count = b.failure_count + 1 ∧
    (record_failure cfg b t true).success_count = b.success_count ∧
    (record_failure cfg b t true).last_failure_time = t := by
  unfold record_failure
  simp [hst, h]

/-- Recording the expected failure that reaches the threshold while
CLOSED opens the circuit and zeroes success_count. -/
theorem record_failure_closed_ge (cfg : CircuitBreakerConfig) (b : CircuitBreaker)
    (t : Int) (hst : b.state = CircuitBreakerState.closed)
    (h : cfg.failure_threshold ≤ b.failure_count + 1) :
    (record_failure cfg b t true).state = CircuitBreakerState.opened ∧
    (record_failure cfg b t true).failure_count = b.failure_count + 1 ∧
    (record_failure cfg b t true).success_count = 0 ∧
    (record_failure cfg b t true).last_failure_time = t := by
  unfold record_failure set_state
  simp [hst, h]

/-- Recording any expected failure while HALF_OPEN reopens the circuit,
zeroes success_count and stamps last_failure_time. -/
theorem record_failure_half (cfg : CircuitBreakerConfig) (b : CircuitBreaker)
    (t : Int) (hst : b.state = CircuitBreakerState.half_open) :
    (record_failure cfg b t true).state = CircuitBreakerState.opened ∧
    (record_failure cfg b t true).failure_count = b.failure_count + 1 ∧
    (record_failure cfg b t true).success_count = 0 ∧
    (record_failure cfg b t true).last_failure_time = t := by
  unfold record_failure set_state
  simp [hst]

/-- Unfolding one step of a run of failing calls. -/
theorem fail_calls_cons (cfg : CircuitBreakerConfig) (b : CircuitBreaker)
    (t : Int) (ts : List Int) :
    fail_calls cfg b (t :: ts) =
      fail_calls cfg (CircuitBreaker.call cfg b t (OpBehavior.fails true)).1 ts := rfl

/-- Unfolding one step of a run of succeeding calls. -/
theorem success_calls_cons (cfg : CircuitBreakerConfig) (b : CircuitBreaker)
    (t : Int) (ts : List Int) :
    success_calls cfg b (t :: ts) =
      success_calls cfg (CircuitBreaker.call cfg b t OpBehavior.succeeds).1 ts := rfl

/-- While the cumulative failure count stays strictly below the failure
threshold, a run of expected failures keeps the breaker CLOSED and
increments failure_count once per call. -/
theorem fail_calls_stay_closed (cfg : CircuitBreakerConfig) :
    ∀ (ts : List Int) (b : CircuitBreaker),
    b.state = CircuitBreakerState.closed →
    b.failure_count + ts.length < cfg.failure_threshold →
    (fail_calls cfg b ts).state = CircuitBreakerState.closed ∧
    (fail_calls cfg b ts).failure_count = b.failure_count + ts.length := by
  intro ts
  induction ts with
  | nil => intro b hst _; simpa [fail_calls] using hst
  | cons t ts ih =>
      intro b hst hlt
      have hne : b.state ≠ CircuitBreakerState.opened := by simp [hst]
      have hstep : ¬ cfg.failure_threshold ≤ b.failure_count + 1 := by
        simp at hlt ⊢; omega
      have hrf := record_failure_closed_lt cfg b t hst hstep
      rw [fail_calls_cons, call_not_open cfg b t _ hne]
      have h2 := ih (record_failure cfg b t true) hrf.1 (by
        rw [hrf.2.1]; simp at hlt ⊢; omega)
      rw [show (run_op cfg b t (OpBehavior.fails true)).1 = record_failure cfg b t true from rfl]
      refine ⟨h2.1, ?_⟩
      rw [h2.2, hrf.2.1]; simp; omega

/-- Once the cumulative failure count reaches the failure threshold, a
nonempty run of expected failures from CLOSED ends with the breaker
OPEN. -/
theorem fail_calls_open (cfg : CircuitBreakerConfig) :
    ∀ (ts : List Int) (b : CircuitBreaker),
    b.state = CircuitBreakerState.closed →
    cfg.failure_threshold = b.failure_count + ts.length →
    1 ≤ ts.length →
    (fail_calls cfg b ts).state = CircuitBreakerState.opened := by
  intro ts
  induction ts with
  | nil => intro b _ _ h; simp at h
  | cons t ts ih =>
      intro b hst hthr _
      have hne : b.state ≠ CircuitBreakerState.opened := by simp [hst]
      rw [fail_calls_cons, call_not_open cfg b t _ hne]
      rw [show (run_op cfg b t (OpBehavior.fails true)).1 = record_failure cfg b t true from rfl]
      rcases List.eq_nil_or_concat ts with hnil | _
      · subst hnil
        have hstep : cfg.failure_threshold ≤ b.failure_count + 1 := by
          simp at hthr; omega
        have hrf := record_failure_closed_ge cfg b t hst hstep
        simpa [fail_calls] using hrf.1
      · have hlen : 1 ≤ ts.length := by
          cases ts with
          | nil => simp_all
          | cons a l => simp
        have hstep : ¬ cfg.failure_threshold ≤ b.failure_count + 1 := by
          simp at hthr; omega
        have hrf := record_failure_closed_lt cfg b t hst hstep
        exact ih (record_failure cfg b t true) hrf.1
          (by rw [hrf.2.1]; simp at hthr ⊢; omega) hlen

/-- A run of successes from a CLOSED breaker with zeroed counters leaves
all persisted fields unchanged. -/
theorem success_calls_closed_zero (cfg : CircuitBreakerConfig) :
    ∀ (ts : List Int) (b : CircuitBreaker),
    b.state = CircuitBreakerState.closed →
    b.failure_count = 0 → b.success_count = 0 →
    (success_calls cfg b ts).state = CircuitBreakerState.closed ∧
    (success_calls cfg b ts).failure_count = 0 ∧
    (success_calls cfg b ts).success_count = 0 := by
  intro ts
  induction ts with
  | nil => intro b hst hfc hsc; exact ⟨by simpa [success_calls] using hst,
      by simpa [success_calls] using hfc, by simpa [success_calls] using hsc⟩
  | cons t ts ih =>
      intro b hst hfc hsc
      have hne : b.state ≠ CircuitBreakerState.opened := by simp [hst]
      rw [success_calls_cons, call_not_open cfg b t _ hne]
      rw [show (run_op cfg b t OpBehavior.succeeds).1 = record_success cfg b from rfl]
      have hrs := record_success_not_half cfg b (by simp [hst])
      unfold CircuitBreaker.persisted at hrs
      have h1 : (record_success cfg b).state = CircuitBreakerState.closed := by
        have := congrArg Prod.fst hrs; simp_all
      have h2 : (record_success cfg b).failure_count = 0 := by
        have := congrArg (fun p => p.2.1) hrs; simp_all
      have h3 : (record_success cfg b).success_count = 0 := by
        have := congrArg (fun p => p.2.2.1) hrs; simp_all
      exact ih _ h1 h2 h3

/-- From HALF_OPEN, once the run of successes is long enough to lift
success_count to the success threshold, the breaker ends CLOSED with
both counters zeroed. -/
theorem success_calls_close (cfg : CircuitBreakerConfig) :
    ∀ (ts : List Int) (b : CircuitBreaker),
    b.state = CircuitBreakerState.half_open →
    cfg.success_threshold ≤ b.success_count + ts.length →
    1 ≤ ts.length →
    (success_calls cfg b ts).state = CircuitBreakerState.closed ∧
    (success_calls cfg b ts).failure_count = 0 ∧
    (success_calls cfg b ts).success_count = 0 := by
  intro ts
  induction ts with
  | nil => intro b _ _ h; simp at h
  | cons t ts ih =>
      intro b hst hthr _
      have hne : b.state ≠ CircuitBreakerState.opened := by simp [hst]
      rw [success_calls_cons, call_not_open cfg b t _ hne]
      rw [show (run_op cfg b t OpBehavior.succeeds).1 = record_success cfg b from rfl]
      by_cases hstep : cfg.success_threshold ≤ b.success_count + 1
      · have hrs := record_success_half_ge cfg b hst hstep
        exact success_calls_closed_zero cfg ts _ hrs.1 hrs.2.1 hrs.2.2.1
      · have hrs := record_success_half_lt cfg b hst hstep
        have hlen : 1 ≤ ts.length := by
          by_contra hl
          have : ts.length = 0 := by omega
          simp [this] at hthr; omega
        exact ih _ hrs.1 (by rw [hrs.2.2.1]; simp at hthr ⊢; omega) hlen

/-- Recording an expected failure always increments failure_count, in
every state. -/
theorem record_failure_fc (cfg : CircuitBreakerConfig) (b : CircuitBreaker) (t : Int) :
    (record_failure cfg b t true).failure_count = b.failure_count + 1 := by
  unfold record_failure set_state
  cases h : b.state <;> (simp [h]; try (split <;> simp))

/-- If running the operation zeroes a nonzero failure_count, the
bookkeeping closed the circuit from HALF_OPEN. -/
theorem run_op_fc_reset (cfg : CircuitBreakerConfig) (c : CircuitBreaker) (t : Int)
    (op : OpBehavior)
    (h0 : (run_op cfg c t op).1.failure_count = 0)
    (hne : c.failure_count ≠ 0) :
    (run_op cfg c t op).1.state = CircuitBreakerState.closed ∧
    c.state = CircuitBreakerState.half_open := by
  cases op with
  | succeeds =>
      by_cases hh : c.state = CircuitBreakerState.half_open
      · by_cases hthr : cfg.success_threshold ≤ c.success_count + 1
        · exact ⟨(record_success_half_ge cfg c hh hthr).1, hh⟩
        · have := (record_success_half_lt cfg c hh hthr).2.1
          rw [show (run_op cfg c t OpBehavior.succeeds).1 = record_success cfg c from rfl] at h0
          exact absurd (this ▸ h0) hne
      · have := record_success_not_half cfg c hh
        unfold CircuitBreaker.persisted at this
        have hfc : (record_success cfg c).failure_count = c.failure_count := by
          have := congrArg (fun p => p.2.1) this; simpa using this
        rw [show (run_op cfg c t OpBehavior.succeeds).1 = record_success cfg c from rfl] at h0
        exact absurd (hfc ▸ h0) hne
  | fails e =>
      cases e with
      | true =>
          rw [show (run_op cfg c t (OpBehavior.fails true)).1 =
            record_failure cfg c t true from rfl] at h0
          rw [record_failure_fc cfg c t] at h0
          simp at h0
      | false =>
          rw [show (run_op cfg c t (OpBehavior.fails false)).1 =
            record_failure cfg c t false from rfl, record_failure_unexpected] at h0
          exact absurd h0 hne

/-- If the bookkeeping of an invoked operation moves the breaker out of
HALF_OPEN, it zeroes success_count. -/
theorem run_op_leave_half_sc (cfg : CircuitBreakerConfig) (c : CircuitBreaker) (t : Int)
    (op : OpBehavior)
    (hh : c.state = CircuitBreakerState.half_open)
    (hl : (run_op cfg c t op).1.state ≠ CircuitBreakerState.half_open) :
    (run_op cfg c t op).1.success_count = 0 := by
  cases op with
  | succeeds =>
      by_cases hthr : cfg.success_threshold ≤ c.success_count + 1
      · exact (record_success_half_ge cfg c hh hthr).2.2.1
      · exact absurd (record_success_half_lt cfg c hh hthr).1 hl
  | fails e =>
      cases e with
      | true => exact (record_failure_half cfg c t hh).2.2.1
      | false =>
          rw [show (run_op cfg c t (OpBehavior.fails false)).1 =
            record_failure cfg c t false from rfl, record_failure_unexpected] at hl
          exact absurd hh hl

/-- Across one guarded call, a nonzero failure_count is zeroed only on a
transition into CLOSED. -/
theorem call_fc_reset (cfg : CircuitBreakerConfig) (b : CircuitBreaker) (t : Int)
    (op : OpBehavior)
    (h0 : (CircuitBreaker.call cfg b t op).1.failure_count = 0)
    (hne : b.failure_count ≠ 0) :
    (CircuitBreaker.call cfg b t op).1.state = CircuitBreakerState.closed ∧
    b.state ≠ CircuitBreakerState.closed := by
  by_cases hop : b.state = CircuitBreakerState.opened
  · by_cases hcan : cfg.recovery_timeout ≤ t - b.last_failure_time
    · have hc := call_recovering cfg b t op hop hcan
      rw [hc] at h0 ⊢
      have hfc : (set_state b CircuitBreakerState.half_open).failure_count =
          b.failure_count := (set_state_fields b _).2.1
      have := run_op_fc_reset cfg (set_state b CircuitBreakerState.half_open) t op h0
        (by rw [hfc]; exact hne)
      exact ⟨this.1, by rw [hop]; simp⟩
    · have hc := call_rejected cfg b t op hop (by omega)
      rw [hc] at h0
      exact absurd h0 hne
  · have hc := call_not_open cfg b t op hop
    rw [hc] at h0 ⊢
    have := run_op_fc_reset cfg b t op h0 hne
    exact ⟨this.1, by rw [this.2]; simp⟩

/-- Across one guarded call that leaves HALF_OPEN, success_count is
zeroed. -/
theorem call_leave_half_sc (cfg : CircuitBreakerConfig) (b : CircuitBreaker) (t : Int)
    (op : OpBehavior)
    (hh : b.state = CircuitBreakerState.half_open)
    (hl : (CircuitBreaker.call cfg b t op).1.state ≠ CircuitBreakerState.half_open) :
    (CircuitBreaker.call cfg b t op).1.success_count = 0 := by
  have hop : b.state ≠ CircuitBreakerState.opened := by simp [hh]
  have hc := call_not_open cfg b t op hop
  rw [hc] at hl ⊢
  exact run_op_leave_half_sc cfg b t op hh hl

/-- C1: for failure_threshold N, starting CLOSED with failure_count 0,
each of the first N - 1 consecutive expected-kind failures leaves the
breaker CLOSED, the Nth transitions it to OPEN, and a subsequent call
made before recovery_timeout has elapsed since the last failure returns
CircuitBreakerError with the breaker untouched and the operation not
invoked (the rejected outcome). -/
theorem C1_nth_failure_opens (cfg : CircuitBreakerConfig) (b : CircuitBreaker)
    (ts : List Int) (t : Int) (op : OpBehavior)
    (hst : b.state = CircuitBreakerState.closed)
    (hfc : b.failure_count = 0)
    (hlen : ts.length = cfg.failure_threshold)
    (hpos : 1 ≤ cfg.failure_threshold) :
    (∀ k, k < ts.length →
        (fail_calls cfg b (ts.take k)).state = CircuitBreakerState.closed) ∧
    (fail_calls cfg b ts).state = CircuitBreakerState.opened ∧
    (t - (fail_calls cfg b ts).last_failure_time < cfg.recovery_timeout →
        CircuitBreaker.call cfg (fail_calls cfg b ts) t op =
          (fail_calls cfg b ts, CallOutcome.rejected)) := by
  have hopen : (fail_calls cfg b ts).state = CircuitBreakerState.opened :=
    fail_calls_open cfg ts b hst (by omega) (by omega)
  refine ⟨?_, hopen, ?_⟩
  · intro k hk
    refine (fail_calls_stay_closed cfg (ts.take k) b hst ?_).1
    rw [hfc, List.length_take]
    omega
  · intro hlt
    exact call_rejected cfg _ t op hopen hlt

/-- Witness for C1 at failure_threshold 2: two expected failures at
times 3 and 5 open the breaker, and a call at time 7 (before the
recovery timeout of 60) is rejected without invoking the operation. -/
theorem C1_nth_failure_opens_witness :
    (fail_calls cfgW2 bClosedW [3, 5]).state = CircuitBreakerState.opened ∧
    CircuitBreaker.call cfgW2 (fail_calls cfgW2 bClosedW [3, 5]) 7 OpBehavior.succeeds =
      (fail_calls cfgW2 bClosedW [3, 5], CallOutcome.rejected) := by
  have h := C1_nth_failure_opens cfgW2 bClosedW [3, 5] 7 OpBehavior.succeeds
    rfl rfl rfl (by decide)
  exact ⟨h.2.1, h.2.2 (by decide)⟩

/-- C2: a breaker that is OPEN with last_failure_time t0 rejects, with
CircuitBreakerError and without invoking the operation, every call at a
time t with t - t0 below recovery_timeout; the first call with
recovery_timeout elapsed transitions the breaker to HALF_OPEN and
invokes the operation exactly once, the caller seeing exactly the
operation's own outcome. -/
theorem C2_recovery_timeout_gate (cfg : CircuitBreakerConfig) (b : CircuitBreaker)
    (t0 t : Int) (op : OpBehavior)
    (hst : b.state = CircuitBreakerState.opened)
    (hlft : b.last_failure_time = t0) :
    (t - t0 < cfg.recovery_timeout →
        CircuitBreaker.call cfg b t op = (b, CallOutcome.rejected)) ∧
    (cfg.recovery_timeout ≤ t - t0 →
        CircuitBreaker.call cfg b t op =
          run_op cfg (set_state b CircuitBreakerState.half_open) t op ∧
        (set_state b CircuitBreakerState.half_open).state =
          CircuitBreakerState.half_open ∧
        (CircuitBreaker.call cfg b t op).2 = op_outcome op) := by
  constructor
  · intro h
    exact call_rejected cfg b t op hst (by rw [hlft]; exact h)
  · intro h
    have hc := call_recovering cfg b t op hst (by rw [hlft]; exact h)
    refine ⟨hc, (set_state_fields b _).1, ?_⟩
    rw [hc]
    cases op <;> rfl

/-- Witness for C2: the breaker that opened at time 0 rejects a call at
time 30 and, at time 61, invokes the operation and returns its result. -/
theorem C2_recovery_timeout_gate_witness :
    CircuitBreaker.call cfgW bOpenW 30 OpBehavior.succeeds =
      (bOpenW, CallOutcome.rejected) ∧
    (CircuitBreaker.call cfgW bOpenW 61 OpBehavior.succeeds).2 =
      op_outcome OpBehavior.succeeds := by
  exact ⟨(C2_recovery_timeout_gate cfgW bOpenW 0 30 OpBehavior.succeeds rfl rfl).1
      (by decide),
    ((C2_recovery_timeout_gate cfgW bOpenW 0 61 OpBehavior.succeeds rfl rfl).2
      (by decide)).2.2⟩

/-- C3: from HALF_OPEN with success_count 0, success_threshold
consecutive successful calls close the circuit with both counters
zeroed; a single expected-kind failure from HALF_OPEN reopens it,
zeroing success_count and stamping last_failure_time with the failure
time; and across any guarded call, a nonzero failure_count is zeroed
only on a transition into CLOSED, and success_count is zeroed whenever
the breaker leaves HALF_OPEN in either direction. -/
theorem C3_half_open_transitions (cfg : CircuitBreakerConfig) :
    (∀ (b : CircuitBreaker) (ts : List Int),
        b.state = CircuitBreakerState.half_open →
        b.success_count = 0 →
        ts.length = cfg.success_threshold →
        1 ≤ cfg.success_threshold →
        (success_calls cfg b ts).state = CircuitBreakerState.closed ∧
        (success_calls cfg b ts).failure_count = 0 ∧
        (success_calls cfg b ts).success_count = 0) ∧
    (∀ (b : CircuitBreaker) (t : Int),
        b.state = CircuitBreakerState.half_open →
        (CircuitBreaker.call cfg b t (OpBehavior.fails true)).1.state =
          CircuitBreakerState.opened ∧
        (CircuitBreaker.call cfg b t (OpBehavior.fails true)).1.success_count = 0 ∧
        (CircuitBreaker.call cfg b t (OpBehavior.fails true)).1.last_failure_time = t) ∧
    (∀ (b : CircuitBreaker) (t : Int) (op : OpBehavior),
        ((CircuitBreaker.call cfg b t op).1.failure_count = 0 →
          b.failure_count ≠ 0 →
          (CircuitBreaker.call cfg b t op).1.state = CircuitBreakerState.closed ∧
          b.state ≠ CircuitBreakerState.closed) ∧
        (b.state = CircuitBreakerState.half_open →
          (CircuitBreaker.call cfg b t op).1.state ≠ CircuitBreakerState.half_open →
          (CircuitBreaker.call cfg b t op).1.success_count = 0)) := by
  refine ⟨?_, ?_, ?_⟩
  · intro b ts hst hsc hlen hpos
    exact success_calls_close cfg ts b hst (by omega) (by omega)
  · intro b t hst
    have hop : b.state ≠ CircuitBreakerState.opened := by simp [hst]
    rw [call_not_open cfg b t _ hop]
    rw [show (run_op cfg b t (OpBehavior.fails true)).1 =
      record_failure cfg b t true from rfl]
    have h := record_failure_half cfg b t hst
    exact ⟨h.1, h.2.2.1, h.2.2.2⟩
  · intro b t op
    exact ⟨fun h0 hne => call_fc_reset cfg b t op h0 hne,
           fun hh hl => call_leave_half_sc cfg b t op hh hl⟩

/-- Witness for C3 at success_threshold 3: three successes from
HALF_OPEN close the breaker with zeroed counters; one expected failure
at time 9 reopens it; a closing success zeroes a nonzero failure count
exactly on the HALF_OPEN to CLOSED transition; and an expected failure
leaving HALF_OPEN zeroes success_count. -/
theorem C3_half_open_transitions_witness :
    ((success_calls cfgW bHalfW [1, 2, 3]).state = CircuitBreakerState.closed ∧
      (success_calls cfgW bHalfW [1, 2, 3]).failure_count = 0 ∧
      (success_calls cfgW bHalfW [1, 2, 3]).success_count = 0) ∧
    ((CircuitBreaker.call cfgW bHalfW 9 (OpBehavior.fails true)).1.state =
        CircuitBreakerState.opened ∧
      (CircuitBreaker.call cfgW bHalfW 9 (OpBehavior.fails true)).1.success_count = 0 ∧
      (CircuitBreaker.call cfgW bHalfW 9 (OpBehavior.fails true)).1.last_failure_time = 9) ∧
    ((CircuitBreaker.call cfgW bHalf2W 5 OpBehavior.succeeds).1.state =
        CircuitBreakerState.closed ∧
      bHalf2W.state ≠ CircuitBreakerState.closed) ∧
    (CircuitBreaker.call cfgW bHalfW 9 (OpBehavior.fails true)).1.success_count = 0 := by
  refine ⟨(C3_half_open_transitions cfgW).1 bHalfW [1, 2, 3] rfl rfl rfl (by decide),
    (C3_half_open_transitions cfgW).2.1 bHalfW 9 rfl,
    ((C3_half_open_transitions cfgW).2.2 bHalf2W 5 OpBehavior.succeeds).1
      (by decide) (by decide),
    ((C3_half_open_transitions cfgW).2.2 bHalfW 9 (OpBehavior.fails true)).2
      rfl (by decide)⟩

/-- Recording a success always performs at least one metrics write. -/
theorem record_success_mw (cfg : CircuitBreakerConfig) (b : CircuitBreaker) :
    b.metrics_writes < (record_success cfg b).metrics_writes := by
  have h3 : (record_success cfg b).metrics_writes = b.metrics_writes + 1 ∨
      (record_success cfg b).metrics_writes = b.metrics_writes + 2 := by
    unfold record_success set_state
    by_cases h2 : cfg.success_threshold ≤ b.success_count + 1 <;>
      cases h : b.state <;> simp [h, h2]
  omega

/-- Recording an expected failure always performs at least one metrics
write. -/
theorem record_failure_mw (cfg : CircuitBreakerConfig) (b : CircuitBreaker) (t : Int) :
    b.metrics_writes < (record_failure cfg b t true).metrics_writes := by
  unfold record_failure set_state
  cases h : b.state <;> (simp [h]; try (split <;> simp)) <;> omega

/-- The state setter never loses metrics writes. -/
theorem set_state_mw (b : CircuitBreaker) (s : CircuitBreakerState) :
    b.metrics_writes ≤ (set_state b s).metrics_writes := by
  unfold set_state
  split <;> simp

/-- The outcome of an invoked operation is never the rejected outcome. -/
theorem run_op_not_rejected (cfg : CircuitBreakerConfig) (b : CircuitBreaker)
    (t : Int) (op : OpBehavior) :
    (run_op cfg b t op).2 ≠ CallOutcome.rejected := by
  cases op <;> simp [run_op]

/-- C5 corrected: when the operation raises a failure of an unexpected
kind, the call leaves failure_count, success_count and
last_failure_time untouched and propagates the failure unchanged; the
breaker is left entirely untouched whenever the call did not begin with
the OPEN to HALF_OPEN recovery transition, and after such a recovery
transition the breaker stays in HALF_OPEN (the unexpected failure
itself still mutates nothing). -/
theorem C5_unexpected_failure_frame (cfg : CircuitBreakerConfig) (b : CircuitBreaker)
    (t : Int)
    (hinv : (CircuitBreaker.call cfg b t (OpBehavior.fails false)).2 ≠
      CallOutcome.rejected) :
    (CircuitBreaker.call cfg b t (OpBehavior.fails false)).1.failure_count =
      b.failure_count ∧
    (CircuitBreaker.call cfg b t (OpBehavior.fails false)).1.success_count =
      b.success_count ∧
    (CircuitBreaker.call cfg b t (OpBehavior.fails false)).1.last_failure_time =
      b.last_failure_time ∧
    (CircuitBreaker.call cfg b t (OpBehavior.fails false)).2 =
      CallOutcome.raised false ∧
    (b.state ≠ CircuitBreakerState.opened →
      (CircuitBreaker.call cfg b t (OpBehavior.fails false)).1 = b) ∧
    (b.state = CircuitBreakerState.opened →
      (CircuitBreaker.call cfg b t (OpBehavior.fails false)).1.state =
        CircuitBreakerState.half_open) := by
  by_cases hop : b.state = CircuitBreakerState.opened
  · by_cases hcan : cfg.recovery_timeout ≤ t - b.last_failure_time
    · have hc := call_recovering cfg b t (OpBehavior.fails false) hop hcan
      rw [hc]
      rw [show run_op cfg (set_state b CircuitBreakerState.half_open) t
        (OpBehavior.fails false) =
        (record_failure cfg (set_state b CircuitBreakerState.half_open) t false,
          CallOutcome.raised false) from rfl]
      rw [record_failure_unexpected]
      have hf := set_state_fields b CircuitBreakerState.half_open
      exact ⟨hf.2.1, hf.2.2.1, hf.2.2.2, rfl, fun h => absurd hop h, fun _ => hf.1⟩
    · have hc := call_rejected cfg b t (OpBehavior.fails false) hop (by omega)
      rw [hc] at hinv
      simp at hinv
  · have hc := call_not_open cfg b t (OpBehavior.fails false) hop
    rw [hc]
    rw [show run_op cfg b t (OpBehavior.fails false) =
      (record_failure cfg b t false, CallOutcome.raised false) from rfl]
    rw [record_failure_unexpected]
    exact ⟨rfl, rfl, rfl, rfl, fun _ => rfl, fun h => absurd h hop⟩

/-- Counterexample to C5 as stated: a breaker that is OPEN with its
recovery timeout elapsed transitions to HALF_OPEN before invoking the
operation, so a call whose operation then raises an unexpected-kind
failure does change the breaker state even though the failure
bookkeeping itself touches nothing. -/
theorem C5_counterexample :
    (CircuitBreaker.call cfgW bOpenW 60 (OpBehavior.fails false)).2 =
      CallOutcome.raised false ∧
    (CircuitBreaker.call cfgW bOpenW 60 (OpBehavior.fails false)).1.state ≠
      bOpenW.state := by
  decide

/-- Witness for the corrected C5: from a CLOSED breaker an
unexpected-kind failure leaves the breaker exactly as it was and
propagates. -/
theorem C5_unexpected_failure_frame_witness :
    (CircuitBreaker.call cfgW bClosedW 0 (OpBehavior.fails false)).1 = bClosedW ∧
    (CircuitBreaker.call cfgW bClosedW 0 (OpBehavior.fails false)).2 =
      CallOutcome.raised false := by
  have h := C5_unexpected_failure_frame cfgW bClosedW 0 (by decide)
  exact ⟨h.2.2.2.2.1 (by decide), h.2.2.2.1⟩

/-- C8 corrected: a call whose operation runs and ends in a success or
in an expected-kind failure always performs at least one metrics write;
but a call rejected with CircuitBreakerError performs no store write at
all (the breaker record is returned unchanged), and a call whose
operation raises an unexpected-kind failure without a preceding
recovery transition performs no store write either. -/
theorem C8_metrics_writes (cfg : CircuitBreakerConfig) (b : CircuitBreaker) (t : Int)
    (op : OpBehavior) :
    ((CircuitBreaker.call cfg b t op).2 = CallOutcome.ok ∨
      (CircuitBreaker.call cfg b t op).2 = CallOutcome.raised true →
      b.metrics_writes < (CircuitBreaker.call cfg b t op).1.metrics_writes) ∧
    ((CircuitBreaker.call cfg b t op).2 = CallOutcome.rejected →
      (CircuitBreaker.call cfg b t op).1 = b) ∧
    ((CircuitBreaker.call cfg b t op).2 = CallOutcome.raised false →
      b.state ≠ CircuitBreakerState.opened →
      (CircuitBreaker.call cfg b t op).1 = b) := by
  by_cases hop : b.state = CircuitBreakerState.opened
  · by_cases hcan : cfg.recovery_timeout ≤ t - b.last_failure_time
    · have hc := call_recovering cfg b t op hop hcan
      rw [hc]
      have hmw := set_state_mw b CircuitBreakerState.half_open
      refine ⟨?_, ?_, ?_⟩
      · rintro (h | h) <;> cases op <;> simp [run_op] at h ⊢
        · exact lt_of_le_of_lt hmw (record_success_mw cfg _)
        · subst h; exact lt_of_le_of_lt hmw (record_failure_mw cfg _ t)
      · intro h; exact absurd h (run_op_not_rejected cfg _ t op)
      · intro _ h; exact absurd hop h
    · have hc := call_rejected cfg b t op hop (by omega)
      rw [hc]
      refine ⟨?_, fun _ => rfl, ?_⟩
      · rintro (h | h) <;> simp at h
      · intro h; simp at h
  · have hc := call_not_open cfg b t op hop
    rw [hc]
    refine ⟨?_, ?_, ?_⟩
    · rintro (h | h) <;> cases op <;> simp [run_op] at h ⊢
      · exact record_success_mw cfg b
      · subst h; exact record_failure_mw cfg b t
    · intro h; exact absurd h (run_op_not_rejected cfg b t op)
    · intro h _
      cases op with
      | succeeds => simp [run_op] at h
      | fails e =>
          simp [run_op] at h
          subst h
          exact record_failure_unexpected cfg b t

/-- Counterexample to C8 as stated: a call rejected with
CircuitBreakerError performs no store write at all, and a call whose
operation raises an unexpected-kind failure from CLOSED performs no
store write either — in particular neither performs a metrics write. -/
theorem C8_counterexample :
    ((CircuitBreaker.call cfgW bOpenW 30 OpBehavior.succeeds).2 =
        CallOutcome.rejected ∧
      (CircuitBreaker.call cfgW bOpenW 30 OpBehavior.succeeds).1.metrics_writes =
        bOpenW.metrics_writes ∧
      (CircuitBreaker.call cfgW bOpenW 30 OpBehavior.succeeds).1.store_writes =
        bOpenW.store_writes) ∧
    ((CircuitBreaker.call cfgW bClosedW 0 (OpBehavior.fails false)).2 =
        CallOutcome.raised false ∧
      (CircuitBreaker.call cfgW bClosedW 0 (OpBehavior.fails false)).1.metrics_writes =
        bClosedW.metrics_writes ∧
      (CircuitBreaker.call cfgW bClosedW 0 (OpBehavior.fails false)).1.store_writes =
        bClosedW.store_writes) := by
  decide

/-- Witness for the corrected C8: a successful call from CLOSED
performs a metrics write. -/
theorem C8_metrics_writes_witness :
    bClosedW.metrics_writes <
      (CircuitBreaker.call cfgW bClosedW 0 OpBehavior.succeeds).1.metrics_writes :=
  (C8_metrics_writes cfgW bClosedW 0 OpBehavior.succeeds).1 (Or.inl rfl)

/-- C9: reset forces CLOSED with failure_count, success_count and
last_failure_time all zero, and a second reset leaves every persisted
field exactly as the first left it. -/
theorem C9_reset_idempotent (b : CircuitBreaker) :
    (CircuitBreaker.reset b).state = CircuitBreakerState.closed ∧
    (CircuitBreaker.reset b).failure_count = 0 ∧
    (CircuitBreaker.reset b).success_count = 0 ∧
    (CircuitBreaker.reset b).last_failure_time = 0 ∧
    (CircuitBreaker.reset (CircuitBreaker.reset b)).persisted =
      (CircuitBreaker.reset b).persisted := by
  unfold CircuitBreaker.reset set_state CircuitBreaker.persisted
  by_cases h : b.state = CircuitBreakerState.closed <;> simp [h]

/-- C10: on an empty registry get_health_summary is total and returns
zero totals with an overall health of 1, the division being guarded. -/
theorem C10_health_summary_empty :
    get_health_summary [] =
      { total_circuit_breakers := 0, healthy := 0, unhealthy := 0,
        overall_health := 1, breakers := [] } := by
  rfl

/-- The minute check passes while the minute bucket is below the cap. -/
theorem check_minute_limit_allowed (L : ServiceLimits) (s : RLStore) (t : Nat)
    (h : s.minute (t / 60) < L.requests_per_minute) :
    check_minute_limit L s t = { allowed := true } := by
  unfold check_minute_limit
  rw [if_neg (not_le.mpr h)]

/-- The minute check denies once the minute bucket has reached the cap,
with the minute reason and a reset_in of at most the window width. -/
theorem check_minute_limit_denied (L : ServiceLimits) (s : RLStore) (t : Nat)
    (h : L.requests_per_minute ≤ s.minute (t / 60)) :
    check_minute_limit L s t =
      { allowed := false, reason := some RLReason.minute_limit_exceeded,
        limit := some L.requests_per_minute, current := some (s.minute (t / 60)),
        reset_in := some (60 - t % 60), window := some RLWindow.minute } := by
  unfold check_minute_limit
  rw [if_pos h]

/-- The day check passes while the day bucket is below the cap. -/
theorem check_daily_limit_allowed (L : ServiceLimits) (s : RLStore) (t : Nat)
    (h : s.day (t / 86400) < L.requests_per_day) :
    check_daily_limit L s t = { allowed := true } := by
  unfold check_daily_limit
  rw [if_neg (not_le.mpr h)]

/-- The burst check passes while the burst bucket for this identity is
below the cap. -/
theorem check_burst_limit_allowed (L : ServiceLimits) (s : RLStore) (t : Nat)
    (u : Option Nat) (h : s.burst (t / 10) u < L.burst_limit) :
    check_burst_limit L s t u = { allowed := true } := by
  unfold check_burst_limit
  rw [if_neg (not_le.mpr h)]

/-- An error-free recording bumps the minute counter of the current
minute bucket and no other minute bucket. -/
theorem record_request_minute (s : RLStore) (t : Nat) (u : Option Nat) (j : Nat) :
    (record_request s t u none).minute j =
      if j = t / 60 then s.minute j + 1 else s.minute j := by
  unfold record_request bump_minute bump_day bump_burst
  simp

/-- An admitted step: with the service enabled and all three caps
strictly below their limits, the decision is allowed and the store
effect is exactly one error-free recording. -/
theorem rl_step_allowed (L : ServiceLimits) (s : RLStore) (t : Nat) (u : Option Nat)
    (hEn : L.enabled = true)
    (hm : s.minute (t / 60) < L.requests_per_minute)
    (hd : s.day (t / 86400) < L.requests_per_day)
    (hb : s.burst (t / 10) u < L.burst_limit) :
    (rl_step L u s t).1.allowed = true ∧
    (rl_step L u s t).2 = record_request s t u none := by
  unfold rl_step check_rate_limit check_rate_limit_body
  simp [hEn, check_minute_limit_allowed L s t hm, check_daily_limit_allowed L s t hd,
    check_burst_limit_allowed L s t u hb]

/-- A denied step on the minute cap: with the service enabled and the
minute bucket full, the decision is the minute denial and the store is
untouched. -/
theorem rl_step_denied_minute (L : ServiceLimits) (s : RLStore) (t : Nat)
    (u : Option Nat) (hEn : L.enabled = true)
    (hm : L.requests_per_minute ≤ s.minute (t / 60)) :
    (rl_step L u s t).1 =
      { allowed := false, reason := some RLReason.minute_limit_exceeded,
        limit := some L.requests_per_minute, current := some (s.minute (t / 60)),
        reset_in := some (60 - t % 60), window := some RLWindow.minute } ∧
    (rl_step L u s t).2 = s := by
  unfold rl_step check_rate_limit check_rate_limit_body
  simp [hEn, check_minute_limit_denied L s t hm]

/-- Unfolding one step of a run of admission checks. -/
theorem rl_run_cons (L : ServiceLimits) (u : Option Nat) (t : Nat) (ts : List Nat)
    (s : RLStore) :
    rl_run L u (t :: ts) s = rl_run L u ts (rl_step L u s t).2 := rfl

/-- A run of admission checks whose times all fall in minute bucket B,
starting with enough minute headroom for its whole length and with the
day and burst caps out of the way at every step, is admitted at every
call and raises the minute bucket counter by exactly its length. -/
theorem rl_run_bucket (L : ServiceLimits) (u : Option Nat) (hEn : L.enabled = true) :
    ∀ (ts : List Nat) (s : RLStore) (B : Nat),
    (∀ x ∈ ts, x / 60 = B) →
    s.minute B + ts.length ≤ L.requests_per_minute →
    rl_side_ok L u ts s →
    rl_all_allowed L u ts s ∧
    (rl_run L u ts s).minute B = s.minute B + ts.length := by
  intro ts
  induction ts with
  | nil => intro s B _ _ _; exact ⟨trivial, by simp [rl_run]⟩
  | cons t ts ih =>
      intro s B hbkt hcap hside
      obtain ⟨hd, hb, hside2⟩ := hside
      have htB : t / 60 = B := hbkt t (by simp)
      have hm : s.minute (t / 60) < L.requests_per_minute := by
        rw [htB]; simp at hcap; omega
      have hstep := rl_step_allowed L s t u hEn hm hd hb
      have hs2 : (rl_step L u s t).2 = record_request s t u none := hstep.2
      have hmin : (record_request s t u none).minute B = s.minute B + 1 := by
        rw [record_request_minute, if_pos htB.symm]
      rw [hs2] at hside2
      have hrest := ih (record_request s t u none) B
        (fun x hx => hbkt x (by simp [hx]))
        (by rw [hmin]; simp at hcap ⊢; omega) hside2
      refine ⟨⟨hstep.1, ?_⟩, ?_⟩
      · rw [hs2]; exact hrest.1
      · rw [rl_run_cons, hs2, hrest.2, hmin]; simp; omega

/-- C4: with the service enabled, requests_per_minute = K, a fresh
minute bucket, and the day and burst caps unreached at every step, K
consecutive admission checks inside one minute bucket are all allowed,
and a (K+1)th check in the same bucket is denied with reason
minute_limit_exceeded and reset_in at most 60. -/
theorem C4_minute_cap (L : ServiceLimits) (s : RLStore) (ts : List Nat) (t : Nat)
    (u : Option Nat)
    (hEn : L.enabled = true)
    (hlen : ts.length = L.requests_per_minute)
    (hbkt : ∀ x ∈ ts, x / 60 = t / 60)
    (hm0 : s.minute (t / 60) = 0)
    (hside : rl_side_ok L u ts s) :
    rl_all_allowed L u ts s ∧
    (rl_step L u (rl_run L u ts s) t).1.allowed = false ∧
    (rl_step L u (rl_run L u ts s) t).1.reason =
      some RLReason.minute_limit_exceeded ∧
    (rl_step L u (rl_run L u ts s) t).1.reset_in = some (60 - t % 60) ∧
    60 - t % 60 ≤ 60 := by
  have hrun := rl_run_bucket L u hEn ts s (t / 60) hbkt (by omega) hside
  have hfull : L.requests_per_minute ≤ (rl_run L u ts s).minute (t / 60) := by
    rw [hrun.2, hm0]; omega
  have hden := rl_step_denied_minute L (rl_run L u ts s) t u hEn hfull
  refine ⟨hrun.1, ?_, ?_, ?_, by omega⟩ <;> rw [hden.1]

/-- Witness for C4 at a minute cap of 2: calls at times 0 and 1 are both
admitted and a third check at time 2, inside the same minute bucket, is
denied on the minute cap. -/
theorem C4_minute_cap_witness :
    rl_all_allowed limitsW none [0, 1] storeZ ∧
    (rl_step limitsW none (rl_run limitsW none [0, 1] storeZ) 2).1.allowed = false ∧
    (rl_step limitsW none (rl_run limitsW none [0, 1] storeZ) 2).1.reason =
      some RLReason.minute_limit_exceeded ∧
    (rl_step limitsW none (rl_run limitsW none [0, 1] storeZ) 2).1.reset_in =
      some (60 - 2 % 60) ∧
    60 - 2 % 60 ≤ 60 :=
  C4_minute_cap limitsW storeZ [0, 1] 2 none rfl rfl
    (by intro x hx; fin_cases hx <;> rfl) rfl
    ⟨by decide, by decide, by decide, by decide, trivial⟩

/-- C7: a denied admission check leaves the store exactly as it was:
no minute, day or burst counter is incremented. -/
theorem C7_denied_no_increment (limits : Option ServiceLimits) (s : RLStore)
    (t : Nat) (u : Option Nat) (e : ErrModel)
    (h : (check_rate_limit limits s t u e).1.allowed = false) :
    (check_rate_limit limits s t u e).2 = s := by
  unfold check_rate_limit check_rate_limit_body at h ⊢
  cases limits with
  | none => simp at h
  | some L =>
      by_cases hEn : L.enabled = false
      · simp [hEn] at h
      · by_cases hce : e.check_err = true
        · simp [hEn, hce] at h
        · simp only [hEn, hce, Bool.false_eq_true, if_false, if_true,
            eq_self_iff_true] at h ⊢
          by_cases h1 : (check_minute_limit L s t).allowed = false
          · simp [h1]
          · by_cases h2 : (check_daily_limit L s t).allowed = false
            · simp [h1, h2]
            · by_cases h3 : (check_burst_limit L s t u).allowed = false
              · simp [h1, h2, h3]
              · simp [h1, h2, h3] at h

/-- Witness for C7: a service with a minute cap of 0 denies the very
first check and the store is returned unchanged. -/
theorem C7_denied_no_increment_witness :
    (check_rate_limit (some limitsW0) storeZ 0 none {}).1.allowed = false ∧
    (check_rate_limit (some limitsW0) storeZ 0 none {}).2 = storeZ :=
  ⟨rfl, C7_denied_no_increment (some limitsW0) storeZ 0 none {} rfl⟩

/-- No minute-check result carries the failsafe flag. -/
theorem check_minute_limit_failsafe (L : ServiceLimits) (s : RLStore) (t : Nat) :
    (check_minute_limit L s t).failsafe = false := by
  unfold check_minute_limit
  by_cases h : L.requests_per_minute ≤ s.minute (t / 60) <;> simp [h]

/-- No day-check result carries the failsafe flag. -/
theorem check_daily_limit_failsafe (L : ServiceLimits) (s : RLStore) (t : Nat) :
    (check_daily_limit L s t).failsafe = false := by
  unfold check_daily_limit
  by_cases h : L.requests_per_day ≤ s.day (t / 86400) <;> simp [h]

/-- No burst-check result carries the failsafe flag. -/
theorem check_burst_limit_failsafe (L : ServiceLimits) (s : RLStore) (t : Nat)
    (u : Option Nat) : (check_burst_limit L s t u).failsafe = false := by
  unfold check_burst_limit
  by_cases h : L.burst_limit ≤ s.burst (t / 10) u <;> simp [h]

/-- C6 corrected: with the service enabled, a store error escaping the
limit-check phase is caught by the outer handler and yields the
fail-open decision allowed = true with failsafe = true and an untouched
store; but a store error confined to record_request or to the
remaining-quota helpers is swallowed locally and the decision is the
ordinary allowed = true without the failsafe flag.  In every case the
embedding returns a decision, so no error reaches the caller. -/
theorem C6_fail_open (L : ServiceLimits) (s : RLStore) (t : Nat) (u : Option Nat)
    (e : ErrModel) (hEn : L.enabled = true) :
    (e.check_err = true →
      check_rate_limit (some L) s t u e = ({ allowed := true, failsafe := true }, s)) ∧
    (e.check_err = false →
      (check_rate_limit (some L) s t u e).1.failsafe = false) ∧
    (e.check_err = false →
      (check_minute_limit L s t).allowed = true →
      (check_daily_limit L s t).allowed = true →
      (check_burst_limit L s t u).allowed = true →
      (check_rate_limit (some L) s t u e).1.allowed = true) := by
  have hEn2 : ¬ L.enabled = false := by simp [hEn]
  refine ⟨?_, ?_, ?_⟩
  · intro hce
    unfold check_rate_limit check_rate_limit_body
    simp [hEn2, hce]
  · intro hce
    unfold check_rate_limit check_rate_limit_body
    by_cases h1 : (check_minute_limit L s t).allowed = false
    · simp [hEn2, hce, h1, check_minute_limit_failsafe]
    · by_cases h2 : (check_daily_limit L s t).allowed = false
      · simp [hEn2, hce, h1, h2, check_daily_limit_failsafe]
      · by_cases h3 : (check_burst_limit L s t u).allowed = false
        · simp [hEn2, hce, h1, h2, h3, check_burst_limit_failsafe]
        · simp [hEn2, hce, h1, h2, h3]
  · intro hce hm hd hb
    have h1 : ¬ (check_minute_limit L s t).allowed = false := by simp [hm]
    have h2 : ¬ (check_daily_limit L s t).allowed = false := by simp [hd]
    have h3 : ¬ (check_burst_limit L s t u).allowed = false := by simp [hb]
    unfold check_rate_limit check_rate_limit_body
    simp [hEn2, hce, h1, h2, h3]

/-- Counterexample to C6 as stated: a store error raised inside
record_request, after the checks have passed, is swallowed by the local
handler of record_request, and the returned decision is allowed = true
without the failsafe flag — the internal error does not mark the
decision. -/
theorem C6_counterexample :
    (check_rate_limit (some limitsW1) storeZ 0 none
      { record_fail_after := some 0 }).1.allowed = true ∧
    (check_rate_limit (some limitsW1) storeZ 0 none
      { record_fail_after := some 0 }).1.failsafe = false := by
  decide

/-- Witness for the corrected C6: a store error in the check phase of an
enabled service yields the failsafe-flagged allowed decision with the
store untouched, while with no check-phase error every decision, here a
denial, carries failsafe = false. -/
theorem C6_fail_open_witness :
    check_rate_limit (some limitsW1) storeZ 5 none { check_err := true } =
      ({ allowed := true, failsafe := true }, storeZ) ∧
    (check_rate_limit (some limitsW0) storeZ 5 none {}).1.failsafe = false :=
  ⟨(C6_fail_open limitsW1 storeZ 5 none { check_err := true } rfl).1 rfl,
   (C6_fail_open limitsW0 storeZ 5 none {} rfl).2.1 rfl⟩
